import Mathlib

/-!
Shallow embedding of the task-tracking web application in `src/main.py`.

The app manages a single SQLite table `tasks`; here the table is a
`List Task` in insertion order (rowid order), and each HTTP handler
becomes a pure function from the table (plus the current date, where the
Python code calls `date.today()`) to the new table and/or an HTTP
response.  Machine behaviour that the handlers rely on only through the
database (ORDER BY, filters, autoincrement ids) is embedded by the
corresponding pure list operation.
-/

namespace TaskApp

/-- Calendar date, mirroring Python `datetime.date` (year, month, day).
SQLite stores a `Date` column as ISO text `YYYY-MM-DD`, so comparison is
lexicographic on (year, month, day). -/
structure Date where
  year : Nat
  month : Nat
  day : Nat
deriving DecidableEq, Repr

/-- The `priority` column holds one of the literal strings
`"High" | "Medium" | "Low"` (the `Literal` annotation in `main.py`). -/
inductive Priority where
  | High
  | Medium
  | Low
deriving DecidableEq, Repr

/-- The string stored in the `priority` column for each enumerated value. -/
def priorityLabel : Priority → String
  | .High => "High"
  | .Medium => "Medium"
  | .Low => "Low"

/-- A row of the `tasks` table (class `Task` in `main.py`). -/
structure Task where
  id : Nat
  title : String
  description : String
  priority : Priority
  due_date : Date
  completed : Bool
deriving DecidableEq, Repr

/-- An HTTP response as far as the claims observe it: status code and,
for redirects, the `Location` target. -/
structure Response where
  status : Nat
  location : String
deriving DecidableEq, Repr

/-- SQLite assigns a fresh integer primary key: one more than the largest
id in the table (`max(rowid)+1` for a non-empty table, 1 otherwise). -/
def nextId (db : List Task) : Nat :=
  (db.foldr (fun t m => max t.id m) 0) + 1

/-! ### POST /tasks/{task_id}/toggle -/

/-- Database effect of `toggle_task_completion`:
`db.query(Task).filter(Task.id == task_id).first()` finds the first row
with the given id; if present its `completed` flag is flipped in place. -/
def toggleTask (task_id : Nat) : List Task → List Task
  | [] => []
  | t :: ts =>
    if t.id = task_id then { t with completed := !t.completed } :: ts
    else t :: toggleTask task_id ts

/-- Handler `toggle_task_completion` in `main.py`: flip the first row
matching `task_id` (no-op when absent) and redirect 303 to `/tasks`. -/
def toggle_task_completion (task_id : Nat) (db : List Task) :
    List Task × Response :=
  (toggleTask task_id db, ⟨303, "/tasks"⟩)

/-! ### POST /tasks -/

/-- Validated form input of the create endpoint (`title`, `description`,
`priority`, `due_date`); the framework rejects any request whose priority
is not one of the three labels or whose date does not parse, so a value
of this type is exactly a valid creation input. -/
structure CreateInput where
  title : String
  description : String
  priority : Priority
  due_date : Date
deriving DecidableEq, Repr

/-- Handler `create_task` in `main.py`: insert a new row with the
submitted fields, `completed=False` and a fresh id, then redirect 303 to
`/tasks`. -/
def create_task (inp : CreateInput) (db : List Task) :
    List Task × Response :=
  let new_task : Task :=
    { id := nextId db
      title := inp.title
      description := inp.description
      priority := inp.priority
      due_date := inp.due_date
      completed := false }
  (db ++ [new_task], ⟨303, "/tasks"⟩)

/-! ### GET /tasks — listing with ORDER BY due_date, priority -/

/-- Boolean `<` on dates: lexicographic on (year, month, day), which is
how SQLite compares ISO-formatted date text. -/
def dateLtb (a b : Date) : Bool :=
  decide (a.year < b.year) ||
    (decide (a.year = b.year) &&
      (decide (a.month < b.month) ||
        (decide (a.month = b.month) && decide (a.day < b.day))))

/-- Lexicographic `≤` on character sequences by code point. -/
def charsLeb : List Char → List Char → Bool
  | [], _ => true
  | _ :: _, [] => false
  | c :: cs, d :: ds =>
    decide (c.toNat < d.toNat) || (decide (c.toNat = d.toNat) && charsLeb cs ds)

/-- Boolean `≤` on strings (SQLite BINARY collation: byte-wise
comparison, which on the ASCII priority labels is code-point
lexicographic order). -/
def strLeb (s t : String) : Bool :=
  charsLeb s.data t.data

/-- The sort key of `ORDER BY Task.due_date, Task.priority`: ascending
due date, ties broken by the raw string order of the priority label. -/
def taskLeb (a b : Task) : Bool :=
  dateLtb a.due_date b.due_date ||
    (decide (a.due_date = b.due_date) &&
      strLeb (priorityLabel a.priority) (priorityLabel b.priority))

/-- The `ORDER BY` key as a relation. -/
def taskLe (a b : Task) : Prop := taskLeb a b = true

instance : DecidableRel taskLe := fun a b => by
  unfold taskLe; exact inferInstance

/-- Handler `list_tasks` in `main.py`: every row of the table, ordered by
`ORDER BY Task.due_date, Task.priority` (the rendered template receives
exactly this sequence). -/
def list_tasks (db : List Task) : List Task :=
  List.insertionSort taskLe db

/-! ### GET / — dashboard -/

/-- Handler `dashboard` in `main.py`: rows with
`Task.due_date == today`, `Task.priority == "High"`,
`Task.completed == False`. -/
def dashboard (today : Date) (db : List Task) : List Task :=
  db.filter fun t =>
    decide (t.due_date = today) && decide (t.priority = .High) &&
      (t.completed == false)

/-! ### Email summary -/

/-- Zero-padded decimal rendering of a date field to the given width,
as the Python date string rendering produces (`YYYY-MM-DD`). -/
def padNum (width n : Nat) : String :=
  let s := toString n
  if s.length < width then
    String.mk (List.replicate (width - s.length) '0') ++ s
  else s

/-- `str(date(y, m, d))` in Python: ISO format `YYYY-MM-DD`. -/
def dateStr (d : Date) : String :=
  padNum 4 d.year ++ "-" ++ padNum 2 d.month ++ "-" ++ padNum 2 d.day

/-- One checkbox-style line of the summary body, as formatted in the
loop of `send_daily_email_summary`. -/
def checkboxLine (t : Task) : String :=
  "- [ ] " ++ t.title ++ " (Priority: " ++ priorityLabel t.priority ++
    ", Due: " ++ dateStr t.due_date ++ ")\n"

/-- The summary text assembled by `send_daily_email_summary`: a header
with the current date, then either the single "no pending tasks" line or
one checkbox line per task, accumulated in input order. -/
def build_summary (today : Date) (pending_tasks : List Task) : String :=
  let base := "Daily Task Summary for " ++ dateStr today ++ ":\n\n"
  if pending_tasks.isEmpty then
    base ++ "No pending tasks for today!\n"
  else
    pending_tasks.foldl (fun acc t => acc ++ checkboxLine t) base

/-! ### Seeding -/

/-- The fixed example rows inserted by `seed_database` into an empty
table; four use `date.today()` as due date, ids are assigned 1..5 by the
autoincrement on an empty table. -/
def seedTasks (today : Date) : List Task :=
  [ { id := 1, title := "Finish FastAPI App"
      description := "Complete all functional and technical requirements."
      priority := .High, due_date := today, completed := false }
  , { id := 2, title := "Buy Groceries"
      description := "Milk, Eggs, Bread, Vegetables"
      priority := .Medium, due_date := today, completed := false }
  , { id := 3, title := "Call Mom"
      description := "Wish her a happy birthday."
      priority := .High, due_date := today, completed := false }
  , { id := 4, title := "Plan Weekend Trip"
      description := "Research destinations and activities."
      priority := .Low, due_date := ⟨2026, 2, 20⟩, completed := false }
  , { id := 5, title := "Workout"
      description := "Go to the gym for an hour."
      priority := .Medium, due_date := today, completed := true } ]

/-- `seed_database` in `main.py`: insert the example rows only when
`db.query(Task).count() == 0`; otherwise the table is left untouched. -/
def seed_database (today : Date) (db : List Task) : List Task :=
  if db.length = 0 then db ++ seedTasks today else db

/-! ### POST /simulate-email -/

/-- A database mutation another request could perform between the
trigger response and the background dispatch. -/
inductive Mutation where
  | create (inp : CreateInput)
  | toggle (task_id : Nat)
  | seed

/-- Apply one interleaved mutation to the table. -/
def applyMutation (today : Date) (db : List Task) : Mutation → List Task
  | .create inp => (create_task inp db).1
  | .toggle task_id => (toggle_task_completion task_id db).1
  | .seed => seed_database today db

/-- Handler `trigger_email_summary` in `main.py`: it materialises
`db.query(Task).filter(Task.completed == False).all()` while handling
the request, schedules the dispatch over that list, and redirects 303 to
`/`. -/
def trigger_email_summary (db : List Task) : List Task × Response :=
  (db.filter (fun t => t.completed == false), ⟨303, "/"⟩)

/-- End-to-end embedding of the simulate-email flow: the snapshot is
taken at request time, arbitrary mutations run after the response, and
only then does the background task build the summary — from the saved
snapshot, exactly as `send_daily_email_summary(pending_tasks)` receives
the already-materialised list. Returns the dispatched summary text and
the final table. -/
def emailFlow (today : Date) (db : List Task) (muts : List Mutation) :
    String × List Task :=
  let pending := (trigger_email_summary db).1
  let db' := muts.foldl (applyMutation today) db
  (build_summary today pending, db')

/-! ### Concrete fixture used by the testable properties -/

/-- The fixture date 2026-01-01. -/
def d0 : Date := ⟨2026, 1, 1⟩

/-- Fixture task A(due 2026-01-01, High). -/
def fixA : Task := ⟨1, "A", "", .High, d0, false⟩

/-- Fixture task B(due 2026-01-01, Low). -/
def fixB : Task := ⟨2, "B", "", .Low, d0, false⟩

/-- Fixture task C(due 2026-01-01, Medium). -/
def fixC : Task := ⟨3, "C", "", .Medium, d0, false⟩

/-! ### Order-theoretic facts about the ORDER BY key -/

instance : IsTotal Task taskLe := by
  constructor
  intro a b
  have hp : ∀ p q : Priority,
      strLeb (priorityLabel p) (priorityLabel q) = true ∨
        strLeb (priorityLabel q) (priorityLabel p) = true := by
    intro p q; cases p <;> cases q <;> decide
  have hd : ∀ x y : Date, dateLtb x y = true ∨ x = y ∨ dateLtb y x = true := by
    intro x y
    rcases x with ⟨y1, m1, d1⟩; rcases y with ⟨y2, m2, d2⟩
    simp only [dateLtb, Date.mk.injEq, Bool.or_eq_true, Bool.and_eq_true,
      decide_eq_true_iff]
    omega
  unfold taskLe taskLeb
  rcases hd a.due_date b.due_date with h | h | h
  · left; simp [h]
  · rcases hp a.priority b.priority with h2 | h2
    · left; simp [h, h2]
    · right; simp [h, h2]
  · right; simp [h]

instance : IsTrans Task taskLe := by
  constructor
  intro a b c hab hbc
  have hpt : ∀ p q r : Priority,
      strLeb (priorityLabel p) (priorityLabel q) = true →
        strLeb (priorityLabel q) (priorityLabel r) = true →
          strLeb (priorityLabel p) (priorityLabel r) = true := by
    intro p q r; cases p <;> cases q <;> cases r <;> decide
  have hdt : ∀ x y z : Date,
      dateLtb x y = true → dateLtb y z = true → dateLtb x z = true := by
    intro x y z
    rcases x with ⟨a1, a2, a3⟩; rcases y with ⟨b1, b2, b3⟩
    rcases z with ⟨c1, c2, c3⟩
    simp only [dateLtb, Bool.or_eq_true, Bool.and_eq_true, decide_eq_true_iff]
    omega
  unfold taskLe taskLeb at hab hbc ⊢
  simp only [Bool.or_eq_true, Bool.and_eq_true, decide_eq_true_iff] at hab hbc ⊢
  rcases hab with h1 | ⟨e1, p1⟩
  · rcases hbc with h2 | ⟨e2, p2⟩
    · exact Or.inl (hdt _ _ _ h1 h2)
    · left; rw [← e2]; exact h1
  · rcases hbc with h2 | ⟨e2, p2⟩
    · left; rw [e1]; exact h2
    · exact Or.inr ⟨e1.trans e2, hpt _ _ _ p1 p2⟩

/-! ## Helper lemmas -/

/-- Toggling the same id twice restores the table exactly. -/
theorem toggleTask_toggleTask (task_id : Nat) :
    ∀ db : List Task, toggleTask task_id (toggleTask task_id db) = db := by
  intro db
  induction db with
  | nil => rfl
  | cons t ts ih =>
    by_cases h : t.id = task_id
    · subst h; simp [toggleTask]
    · simp [toggleTask, h, ih]

/-- After a toggle, the first row matching the id is the old row with its
`completed` flag flipped. -/
theorem toggleTask_find (task_id : Nat) :
    ∀ (db : List Task) (t : Task),
      db.find? (fun u => decide (u.id = task_id)) = some t →
        (toggleTask task_id db).find? (fun u => decide (u.id = task_id)) =
          some { t with completed := !t.completed } := by
  intro db
  induction db with
  | nil => intro t h; simp [List.find?] at h
  | cons a ts ih =>
    intro t h
    by_cases ha : a.id = task_id
    · rw [List.find?_cons_of_pos _ (by simp [ha])] at h
      cases h
      simp [toggleTask, ha, List.find?_cons_of_pos]
    · rw [List.find?_cons_of_neg _ (by simp [ha])] at h
      rw [toggleTask, if_neg ha, List.find?_cons_of_neg _ (by simp [ha])]
      exact ih t h

/-- Toggling an id that matches no row leaves the table unchanged. -/
theorem toggleTask_id_absent (task_id : Nat) :
    ∀ db : List Task, (∀ t ∈ db, t.id ≠ task_id) → toggleTask task_id db = db := by
  intro db
  induction db with
  | nil => intro _; rfl
  | cons t ts ih =>
    intro h
    rw [toggleTask, if_neg (h t (by simp))]
    rw [ih fun u hu => h u (by simp [hu])]

/-- Left fold of string appends equals the seed followed by the joined
mapped pieces. -/
theorem foldl_append_join (f : Task → String) :
    ∀ (ts : List Task) (base : String),
      ts.foldl (fun acc t => acc ++ f t) base = base ++ String.join (ts.map f) := by
  intro ts
  induction ts with
  | nil =>
    intro base
    simp [String.join]
  | cons t ts ih =>
    intro base
    have hjoin : String.join (f t :: ts.map f) = f t ++ String.join (ts.map f) := by
      simp [String.join_eq]; rfl
    simp only [List.foldl_cons, List.map_cons, ih, hjoin, String.append_assoc]

/-! ## Claims -/

/-- C1: for every task id present in the store, toggling twice restores
the `completed` field of the task (indeed the whole table), and a single
toggle flips exactly the `completed` flag of that task. -/
theorem toggle_completion_involution (task_id : Nat) (db : List Task) (t : Task)
    (h : db.find? (fun u => decide (u.id = task_id)) = some t) :
    (toggle_task_completion task_id
        (toggle_task_completion task_id db).1).1 = db ∧
      (toggle_task_completion task_id db).1.find?
          (fun u => decide (u.id = task_id)) =
        some { t with completed := !t.completed } :=
  ⟨toggleTask_toggleTask task_id db, toggleTask_find task_id db t h⟩

/-- Witness for C1 at the concrete table `[fixA, fixB]` and id 1. -/
theorem toggle_completion_involution_witness :
    ([fixA, fixB].find? (fun u => decide (u.id = 1)) = some fixA) ∧
      (toggle_task_completion 1 (toggle_task_completion 1 [fixA, fixB]).1).1 =
        [fixA, fixB] ∧
      (toggle_task_completion 1 [fixA, fixB]).1.find?
          (fun u => decide (u.id = 1)) =
        some { fixA with completed := !fixA.completed } :=
  ⟨by decide,
   (toggle_completion_involution 1 [fixA, fixB] fixA (by decide)).1,
   (toggle_completion_involution 1 [fixA, fixB] fixA (by decide)).2⟩

/-- C2: toggling an id matching no row leaves the table completely
unchanged and responds 303 → /tasks, the very response every toggle
request receives. -/
theorem toggle_missing_id_noop (task_id : Nat) (db : List Task)
    (h : ∀ t ∈ db, t.id ≠ task_id) :
    toggle_task_completion task_id db = (db, ⟨303, "/tasks"⟩) ∧
      ∀ db2 : List Task,
        (toggle_task_completion task_id db2).2 = ⟨303, "/tasks"⟩ := by
  constructor
  · unfold toggle_task_completion
    rw [toggleTask_id_absent task_id db h]
  · intro db2; rfl

/-- Witness for C2 at the concrete table `[fixA, fixB]` and missing id 99. -/
theorem toggle_missing_id_noop_witness :
    fixA.id ≠ 99 ∧ fixB.id ≠ 99 ∧
      toggle_task_completion 99 [fixA, fixB] = ([fixA, fixB], ⟨303, "/tasks"⟩) ∧
      (toggle_task_completion 99 [fixC]).2 = ⟨303, "/tasks"⟩ :=
  ⟨by decide, by decide,
   (toggle_missing_id_noop 99 [fixA, fixB] (by decide)).1,
   (toggle_missing_id_noop 99 [fixA, fixB] (by decide)).2 [fixC]⟩

/-- C3: creating a task appends exactly one new row carrying the
submitted title, description, priority and due date, with
`completed = false`, leaves every pre-existing row unchanged, and
responds 303 → /tasks. -/
theorem create_task_appends_row (inp : CreateInput) (db : List Task) :
    create_task inp db =
        (db ++ [{ id := nextId db, title := inp.title,
                  description := inp.description, priority := inp.priority,
                  due_date := inp.due_date, completed := false }],
         ⟨303, "/tasks"⟩) ∧
      (create_task inp db).1.length = db.length + 1 :=
  ⟨rfl, by simp [create_task]⟩

/-- C4: the listing returns every row, ordered ascending by due date with
ties broken by raw string order on the priority label (so
High < Low < Medium), and on the fixture A(High), B(Low), C(Medium) with
equal due dates the returned order is [A, B, C]. -/
theorem list_tasks_ordered :
    (∀ db : List Task,
        List.Perm (list_tasks db) db ∧ List.Sorted taskLe (list_tasks db)) ∧
      list_tasks [fixB, fixC, fixA] = [fixA, fixB, fixC] :=
  ⟨fun db =>
    ⟨List.perm_insertionSort taskLe db, List.sorted_insertionSort taskLe db⟩,
   by decide⟩

/-- C5: the dashboard contains a task iff it is in the table, due today,
High priority and not completed — so it drops out the moment `completed`
flips to true. -/
theorem dashboard_mem_iff (today : Date) (db : List Task) (t : Task) :
    t ∈ dashboard today db ↔
      t ∈ db ∧ t.due_date = today ∧ t.priority = .High ∧ t.completed = false := by
  simp [dashboard, List.mem_filter, and_assoc]

/-- C6: the summary is the dated header followed, for the empty list, by
exactly the single "no pending tasks" line, and otherwise by one
checkbox line per task in input order (each line shows the corresponding
title, priority label and due date — see `checkboxLine`). -/
theorem build_summary_shape (today : Date) :
    build_summary today [] =
        "Daily Task Summary for " ++ dateStr today ++ ":\n\n" ++
          "No pending tasks for today!\n" ∧
      ∀ ts : List Task, ts ≠ [] →
        build_summary today ts =
            "Daily Task Summary for " ++ dateStr today ++ ":\n\n" ++
              String.join (ts.map checkboxLine) ∧
          (ts.map checkboxLine).length = ts.length := by
  constructor
  · rfl
  · intro ts hts
    refine ⟨?_, by simp⟩
    rw [build_summary]
    rw [if_neg (by simpa using hts)]
    exact foldl_append_join checkboxLine ts _

/-- Witness for C6 at the concrete date `d0`, for both the empty list
and the one-task list `[fixA]`. -/
theorem build_summary_shape_witness :
    build_summary d0 [] =
        "Daily Task Summary for " ++ dateStr d0 ++ ":\n\n" ++
          "No pending tasks for today!\n" ∧
      (build_summary d0 [fixA] =
          "Daily Task Summary for " ++ dateStr d0 ++ ":\n\n" ++
            String.join ([fixA].map checkboxLine) ∧
        ([fixA].map checkboxLine).length = [fixA].length) :=
  ⟨(build_summary_shape d0).1, (build_summary_shape d0).2 [fixA] (by decide)⟩

/-- C7: seeding inserts the examples only into an empty table — any
table with at least one row is left unchanged — and seeding is
idempotent, so a second seeding never changes the row count. -/
theorem seed_database_noop_nonempty (today : Date) (db : List Task) :
    (db ≠ [] → seed_database today db = db) ∧
      seed_database today (seed_database today db) = seed_database today db := by
  constructor
  · intro h
    rw [seed_database, if_neg (by simpa [List.length_eq_zero] using h)]
  · by_cases h : db = []
    · subst h; simp [seed_database, seedTasks]
    · have hinner : seed_database today db = db := by
        rw [seed_database, if_neg (by simpa [List.length_eq_zero] using h)]
      rw [hinner, hinner]

/-- Witness for C7 at the concrete nonempty table `[fixC]`. -/
theorem seed_database_noop_nonempty_witness :
    seed_database d0 [fixC] = [fixC] ∧
      seed_database d0 (seed_database d0 [fixC]) = seed_database d0 [fixC] :=
  ⟨(seed_database_noop_nonempty d0 [fixC]).1 (by decide),
   (seed_database_noop_nonempty d0 [fixC]).2⟩

/-- C8 as stated is false: the seed data includes the "Workout" example
with `completed=True` (src/main.py line 89), so not every seeded task
enters the store with `completed = false`. -/
theorem seeded_completed_counterexample :
    ¬ ∀ t ∈ seed_database ⟨2026, 10, 12⟩ [], t.completed = false := by
  decide

/-- C8 amended: every task created through the create endpoint enters
with `completed = false`; first-run seeding inserts five rows whose
`completed` values are [false, false, false, false, true] — all false
except the final "Workout" example, which is seeded already
completed. -/
theorem completed_initially_false_amended :
    (∀ (inp : CreateInput) (db : List Task),
        (create_task inp db).1.map Task.completed =
          db.map Task.completed ++ [false]) ∧
      ∀ today : Date,
        (seed_database today []).map Task.completed =
          [false, false, false, false, true] :=
  ⟨fun inp db => by simp [create_task], fun today => rfl⟩

/-- C10: the dispatched summary is computed from the snapshot of
incomplete tasks materialised while the trigger request is handled: that
snapshot is exactly the tasks with `completed = false` at request time,
and no sequence of interleaved mutations run before the background
dispatch changes the dispatched text. -/
theorem email_summary_snapshot (today : Date) (db : List Task)
    (muts : List Mutation) (t : Task) :
    (emailFlow today db muts).1 =
        build_summary today (db.filter fun u => u.completed == false) ∧
      (t ∈ (trigger_email_summary db).1 ↔ t ∈ db ∧ t.completed = false) ∧
      (trigger_email_summary db).2 = ⟨303, "/"⟩ :=
  ⟨rfl, by simp [trigger_email_summary, List.mem_filter], rfl⟩

end TaskApp
